import Mathlib

/-!
Verification development for the Korean-learning quiz app
(`src/streamlit_app.py`).

The program is an interactive Streamlit script.  Its core is a session
step state machine kept in `st.session_state`:
  * `topic_info`  — `None` or the parsed JSON object from `get_random_topic`
  * `step`        — stage index (0..4)
  * `hangul_quiz_data`, `english_quiz_data`, `fill_blank_data` — per-stage
    memo dictionaries, `{}` (empty) until the stage first renders.

The external generative backend (`get_json_response`, which performs an
OpenAI chat call with `response_format = json_object` and `json.loads`s
the reply) is modelled as an oracle `Env.respond : Nat → PromptTag →
JsonObj` indexed by a running call counter, since the backend is
generative and gives no determinism guarantee; the `PromptTag` records
which recipe's prompt the call used.  `random.shuffle` is modelled by an
environment permutation function `Env.shuffle`; well-formed environments
(`Env.Wf`) shuffle to a permutation of the input, which is all
`random.shuffle` guarantees.

A parsed `json_object` response is an ordered string-keyed mapping; the
program only ever reads string values from it, so a response is modelled
as an ordered association list of string pairs (`JsonObj`).  Python dict
key lookup `d[k]` raises `KeyError` when `k` is absent and subscripting
`None` raises `TypeError`; both abort the script run, modelled by
`GenError`.  The empty-dict memo test `if not st.session_state.X` is
modelled with `Option`: the only dicts ever stored in the memo slots are
the non-empty literals built at the end of each stage block, so a slot is
either `{}` (here `none`) or one of those records (`some _`).
-/

/-- Which generation recipe's prompt a Gateway call used. -/
inductive PromptTag where
  | randomTopic
  | koreanSentence
  | engToKor
  | engToKorPron
  | hangulToKorPron
  | wrongAnswers
deriving DecidableEq, Repr

/-- A parsed `json_object` backend response: ordered string keys and
string values, as produced by `json.loads` for the shapes this program
requests. -/
structure JsonObj where
  pairs : List (String × String)
deriving DecidableEq, Repr

/-- Python `d[k]` lookup result (without the exception): first matching
key. -/
def JsonObj.get? (o : JsonObj) (k : String) : Option String :=
  (o.pairs.find? (fun p => p.1 == k)).map Prod.snd

/-- Python `list(d.values())`. -/
def JsonObj.values (o : JsonObj) : List String :=
  o.pairs.map Prod.snd

/-- Errors that abort a script run: a `KeyError` from a missing required
key in a backend response (the spec's `GenerationError` for
missing-schema responses), or a `TypeError` from subscripting `None`. -/
inductive GenError where
  | missingKey (k : String)
  | noneAccess
deriving DecidableEq, Repr

/-- Python `obj[key]` on a parsed response: the value, or a `KeyError`. -/
def dictGet (o : JsonObj) (k : String) : Except GenError String :=
  match o.get? k with
  | some v => Except.ok v
  | none => Except.error (GenError.missingKey k)

/-- Stage-1 memo dict `st.session_state.hangul_quiz_data` once filled. -/
structure HangulQuizData where
  hangul : String
  correct_answer : String
  explanation : String
  answer_choices : List String
deriving DecidableEq, Repr

/-- Stage-2 memo dict `st.session_state.english_quiz_data` once filled. -/
structure EnglishQuizData where
  correct_answer : String
  explanation : String
  answer_choices : List String
deriving DecidableEq, Repr

/-- Stage-3 memo dict `st.session_state.fill_blank_data` once filled. -/
structure FillBlankData where
  sentence_with_blank : String
  correct_answer : String
  explanation : String
  answer_choices : List String
deriving DecidableEq, Repr

/-- The program's `st.session_state`, plus a `calls` counter that counts
Gateway invocations (`get_json_response` calls) so that "makes no
Gateway call" claims are expressible.  `calls` is model instrumentation:
it never influences control flow of the embedded program. -/
structure SessionState where
  topic_info : Option JsonObj
  step : Nat
  hangul_quiz_data : Option HangulQuizData
  english_quiz_data : Option EnglishQuizData
  fill_blank_data : Option FillBlankData
  calls : Nat
deriving DecidableEq, Repr

/-- The fresh session state set up by the `if "..." not in st.session_state`
block (lines 112-124 of the source). -/
def initState : SessionState :=
  { topic_info := none
    step := 0
    hangul_quiz_data := none
    english_quiz_data := none
    fill_blank_data := none
    calls := 0 }

/-- The external world: the generative backend's response to the n-th
Gateway call made with a given recipe's prompt, and the `random.shuffle`
permutation. -/
structure Env where
  respond : Nat → PromptTag → JsonObj
  shuffle : List String → List String

/-- A well-formed environment: `random.shuffle` produces a permutation
of its input. -/
def Env.Wf (e : Env) : Prop :=
  ∀ l : List String, List.Perm (e.shuffle l) l

/-- `get_json_response(system_prompt, user_prompt)`: one Gateway call.
The prompts are fixed per call site and identified by the tag; the
response comes from the oracle at the current call index. -/
def get_json_response (e : Env) (tag : PromptTag) (s : SessionState) :
    JsonObj × SessionState :=
  (e.respond s.calls tag, { s with calls := s.calls + 1 })

/-- `get_random_topic()`: one Gateway call, raw parsed dict returned. -/
def get_random_topic (e : Env) (s : SessionState) : JsonObj × SessionState :=
  get_json_response e PromptTag.randomTopic s

/-- `make_korean_sentence(topic)`: one Gateway call, raw parsed dict
returned. -/
def make_korean_sentence (e : Env) (_topic : String) (s : SessionState) :
    JsonObj × SessionState :=
  get_json_response e PromptTag.koreanSentence s

/-- `english_to_korean(english)`: one Gateway call followed by the
`["hangul"]` key access. -/
def english_to_korean (e : Env) (_english : String) (s : SessionState) :
    Except GenError (String × SessionState) :=
  let r := get_json_response e PromptTag.engToKor s
  match r.1.get? "hangul" with
  | none => Except.error (GenError.missingKey "hangul")
  | some h => Except.ok (h, r.2)

/-- `english_to_korean_pronunciation(english)`: one Gateway call, raw
parsed dict returned. -/
def english_to_korean_pronunciation (e : Env) (_english : String)
    (s : SessionState) : JsonObj × SessionState :=
  get_json_response e PromptTag.engToKorPron s

/-- `hangul_to_korean_pronunciation(korean)`: one Gateway call, raw
parsed dict returned. -/
def hangul_to_korean_pronunciation (e : Env) (_korean : String)
    (s : SessionState) : JsonObj × SessionState :=
  get_json_response e PromptTag.hangulToKorPron s

/-- `create_wrong_answers(correct_answer)`: one Gateway call, then
`list(wrong_answers.values())` — no validation, padding or
deduplication. -/
def create_wrong_answers (e : Env) (_correct_answer : String)
    (s : SessionState) : List String × SessionState :=
  let r := get_json_response e PromptTag.wrongAnswers s
  (r.1.values, r.2)

/-- `next_step()`: unconditional `st.session_state.step += 1`. -/
def next_step (s : SessionState) : SessionState :=
  { s with step := s.step + 1 }

/-- `reset_game()`: clears `topic_info` and the three memo slots and sets
`step` back to 0. -/
def reset_game (s : SessionState) : SessionState :=
  { s with
    topic_info := none
    step := 0
    hangul_quiz_data := none
    english_quiz_data := none
    fill_blank_data := none }

/-- The read `st.session_state.topic_info["topic"]` performed at the top
of each quiz-stage block: `TypeError` when `topic_info` is `None`,
`KeyError` when the dict lacks the key. -/
def topicOf (s : SessionState) : Except GenError String :=
  match s.topic_info with
  | none => Except.error GenError.noneAccess
  | some o => dictGet o "topic"

/-- Stage 0 of `run_game_step` (lines 152-156): generate a random topic
unless `topic_info` is already set. -/
def enterStage0 (e : Env) (s : SessionState) : Except GenError SessionState :=
  match s.topic_info with
  | some _ => Except.ok s
  | none =>
      let r := get_random_topic e s
      Except.ok { r.2 with topic_info := some r.1 }

/-- Stage 1 of `run_game_step` (lines 165-188): read the topic, then if
`hangul_quiz_data` is empty, translate to Hangul, transliterate, create
wrong answers, shuffle, and store the memo dict.  All `session_state`
writes happen in the single final store. -/
def enterStage1 (e : Env) (s : SessionState) : Except GenError SessionState :=
  match topicOf s with
  | Except.error er => Except.error er
  | Except.ok topic =>
    match s.hangul_quiz_data with
    | some _ => Except.ok s
    | none =>
      match english_to_korean e topic s with
      | Except.error er => Except.error er
      | Except.ok hs =>
        let hangul := hs.1
        let tr := hangul_to_korean_pronunciation e hangul hs.2
        match tr.1.get? "final_sequence" with
        | none => Except.error (GenError.missingKey "final_sequence")
        | some correct_answer =>
          match tr.1.get? "thought_process" with
          | none => Except.error (GenError.missingKey "thought_process")
          | some explanation =>
            let ws := create_wrong_answers e correct_answer tr.2
            let answer_choices := e.shuffle (ws.1 ++ [correct_answer])
            let d : HangulQuizData := { hangul := hangul,
                                        correct_answer := correct_answer,
                                        explanation := explanation,
                                        answer_choices := answer_choices }
            Except.ok { ws.2 with hangul_quiz_data := some d }

/-- Stage 2 of `run_game_step` (lines 212-230): read the topic, then if
`english_quiz_data` is empty, transliterate the topic directly, create
wrong answers, shuffle, and store the memo dict. -/
def enterStage2 (e : Env) (s : SessionState) : Except GenError SessionState :=
  match topicOf s with
  | Except.error er => Except.error er
  | Except.ok topic =>
    match s.english_quiz_data with
    | some _ => Except.ok s
    | none =>
      let tr := english_to_korean_pronunciation e topic s
      match tr.1.get? "final_sequence" with
      | none => Except.error (GenError.missingKey "final_sequence")
      | some correct_answer =>
        match tr.1.get? "thought_process" with
        | none => Except.error (GenError.missingKey "thought_process")
        | some explanation =>
          let ws := create_wrong_answers e correct_answer tr.2
          let answer_choices := e.shuffle (ws.1 ++ [correct_answer])
          let d : EnglishQuizData := { correct_answer := correct_answer,
                                       explanation := explanation,
                                       answer_choices := answer_choices }
          Except.ok { ws.2 with english_quiz_data := some d }

/-- Stage 3 of `run_game_step` (lines 253-276): read the topic, then if
`fill_blank_data` is empty, build a Korean sentence with elided subject,
transliterate the subject, create wrong answers, shuffle, and store the
memo dict. -/
def enterStage3 (e : Env) (s : SessionState) : Except GenError SessionState :=
  match topicOf s with
  | Except.error er => Except.error er
  | Except.ok topic =>
    match s.fill_blank_data with
    | some _ => Except.ok s
    | none =>
      let sd := make_korean_sentence e topic s
      match sd.1.get? "subject" with
      | none => Except.error (GenError.missingKey "subject")
      | some subject =>
        match sd.1.get? "sentence_with_blank" with
        | none => Except.error (GenError.missingKey "sentence_with_blank")
        | some sentence_with_blank =>
          let tr := hangul_to_korean_pronunciation e subject sd.2
          match tr.1.get? "final_sequence" with
          | none => Except.error (GenError.missingKey "final_sequence")
          | some correct_answer =>
            match tr.1.get? "thought_process" with
            | none => Except.error (GenError.missingKey "thought_process")
            | some explanation =>
              let ws := create_wrong_answers e correct_answer tr.2
              let answer_choices := e.shuffle (ws.1 ++ [correct_answer])
              let d : FillBlankData := { sentence_with_blank := sentence_with_blank,
                                         correct_answer := correct_answer,
                                         explanation := explanation,
                                         answer_choices := answer_choices }
              Except.ok { ws.2 with fill_blank_data := some d }

/-- The spec's `enterStage()`: the generate-or-reuse work `run_game_step`
performs for the current stage on a render (its `if/elif` dispatch on
`step`); stage 4 generates nothing. -/
def enterStage (e : Env) (s : SessionState) : Except GenError SessionState :=
  if s.step = 0 then enterStage0 e s
  else if s.step = 1 then enterStage1 e s
  else if s.step = 2 then enterStage2 e s
  else if s.step = 3 then enterStage3 e s
  else Except.ok s

/-- The verdict rendered by a `Check Answer` click: the success/error
branch taken, and the correct answer and explanation shown on the wrong
branch. -/
structure Verdict where
  correct : Bool
  correct_answer : String
  explanation : String
deriving DecidableEq, Repr

/-- The spec's `checkAnswer`: the `Check Answer` block of the current
quiz stage (lines 202-208, 243-249, 289-295) — compare the chosen answer
with `data["correct_answer"]` by string equality.  On an unfilled memo
dict the comparison's key access is a `KeyError`; outside stages 1-3 no
quiz data object exists at all. -/
def checkAnswer (s : SessionState) (chosen : String) : Except GenError Verdict :=
  if s.step = 1 then
    match s.hangul_quiz_data with
    | none => Except.error (GenError.missingKey "correct_answer")
    | some d => Except.ok
        { correct := chosen == d.correct_answer
          correct_answer := d.correct_answer
          explanation := d.explanation }
  else if s.step = 2 then
    match s.english_quiz_data with
    | none => Except.error (GenError.missingKey "correct_answer")
    | some d => Except.ok
        { correct := chosen == d.correct_answer
          correct_answer := d.correct_answer
          explanation := d.explanation }
  else if s.step = 3 then
    match s.fill_blank_data with
    | none => Except.error (GenError.missingKey "correct_answer")
    | some d => Except.ok
        { correct := chosen == d.correct_answer
          correct_answer := d.correct_answer
          explanation := d.explanation }
  else Except.error GenError.noneAccess

/-- The discrete user/render events the script reacts to: a render of
the current stage (which runs the generate-or-reuse logic), a click on
one of the `Next` buttons (`on_click=next_step` or the stage-0 `Next`
button), a `Check Answer` click, the stage-4 `New Topic!` click
(`reset_game`) and the stage-4 `End Game` click (`st.stop()`). -/
inductive Event where
  | enter
  | advanceBtn
  | check (chosen : String)
  | newTopic
  | endGame
deriving DecidableEq, Repr

/-- What one event produces: the new session state, the verdict rendered
by a `Check Answer` click, and whether `st.stop()` halted the run. -/
structure StepResult where
  state : SessionState
  verdict : Option Verdict
  stopped : Bool
deriving DecidableEq, Repr

/-- One event of the interactive loop.  `End Game` calls `st.stop()`,
which only halts the current script run: it mutates nothing in
`st.session_state`. -/
def applyEvent (e : Env) (ev : Event) (s : SessionState) :
    Except GenError StepResult :=
  match ev with
  | Event.enter =>
      (enterStage e s).map (fun s1 => { state := s1, verdict := none, stopped := false })
  | Event.advanceBtn =>
      Except.ok { state := next_step s, verdict := none, stopped := false }
  | Event.check chosen =>
      (checkAnswer s chosen).map (fun v => { state := s, verdict := some v, stopped := false })
  | Event.newTopic =>
      Except.ok { state := reset_game s, verdict := none, stopped := false }
  | Event.endGame =>
      Except.ok { state := s, verdict := none, stopped := true }

/-- Which events the rendered page can emit at a given state: advance
buttons exist at stages 0-3 only, `Check Answer` at quiz stages 1-3, and
`New Topic!` / `End Game` only at stage 4.  A render (`enter`) happens
on every rerun. -/
def enabledEvent (s : SessionState) : Event → Bool
  | Event.enter => true
  | Event.advanceBtn => decide (s.step < 4)
  | Event.check _ => decide (1 ≤ s.step ∧ s.step ≤ 3)
  | Event.newTopic => decide (s.step = 4)
  | Event.endGame => decide (s.step = 4)

/-- The session state retained in `st.session_state` after an event.  An
uncaught exception aborts the script run; since every stage block writes
its memo dict in a single final store after all Gateway calls succeed, a
failing event leaves `st.session_state` exactly as it was. -/
def stepState (e : Env) (ev : Event) (s : SessionState) : SessionState :=
  match applyEvent e ev s with
  | Except.ok r => r.state
  | Except.error _ => s

/-- Run a sequence of events, threading the retained session state. -/
def runTrace (e : Env) (s : SessionState) : List Event → SessionState
  | [] => s
  | ev :: tl => runTrace e (stepState e ev s) tl

/-- A trace in which every event is one the rendered page offered at the
state it fired from. -/
def traceEnabled (e : Env) : SessionState → List Event → Bool
  | _, [] => true
  | s, ev :: tl => enabledEvent s ev && traceEnabled e (stepState e ev s) tl

/-- The answer-choice list memoized for a quiz stage, if any. -/
def choicesAt (s : SessionState) (stage : Nat) : Option (List String) :=
  if stage = 1 then s.hangul_quiz_data.map HangulQuizData.answer_choices
  else if stage = 2 then s.english_quiz_data.map EnglishQuizData.answer_choices
  else if stage = 3 then s.fill_blank_data.map FillBlankData.answer_choices
  else none

/-- The correct answer memoized for a quiz stage, if any. -/
def correctAt (s : SessionState) (stage : Nat) : Option String :=
  if stage = 1 then s.hangul_quiz_data.map HangulQuizData.correct_answer
  else if stage = 2 then s.english_quiz_data.map EnglishQuizData.correct_answer
  else if stage = 3 then s.fill_blank_data.map FillBlankData.correct_answer
  else none

/-- Whether a stage's memo slot is filled (`topic_info` for stage 0). -/
def memoAt (s : SessionState) : Nat → Bool
  | 0 => s.topic_info.isSome
  | 1 => s.hangul_quiz_data.isSome
  | 2 => s.english_quiz_data.isSome
  | 3 => s.fill_blank_data.isSome
  | _ => true

/-- The call index at which a quiz stage's `create_wrong_answers` call
hits the Gateway when generation starts from state `s`: stage 2 makes
one prior call, stages 1 and 3 make two. -/
def wrongCallIndex (s : SessionState) (stage : Nat) : Nat :=
  if stage = 2 then s.calls + 1 else s.calls + 2

/-- The distractor values the Gateway hands a quiz stage's
`create_wrong_answers` call when generation starts from state `s`. -/
def wrongValsAt (e : Env) (s : SessionState) (stage : Nat) : List String :=
  (e.respond (wrongCallIndex s stage) PromptTag.wrongAnswers).values

/-- Concrete well-behaved backend used for witnesses: every response has
exactly the keys the prompt asks for, with three distinct distractors. -/
def goodRespond : Nat → PromptTag → JsonObj := fun _ tag =>
  match tag with
  | PromptTag.randomTopic => ⟨[("topic", "apple"), ("tutorial", "tut")]⟩
  | PromptTag.koreanSentence => ⟨[("subject", "sub"), ("sentence_with_blank", "x ___")]⟩
  | PromptTag.engToKor => ⟨[("hangul", "hg")]⟩
  | PromptTag.engToKorPron => ⟨[("thought_process", "tp"), ("final_sequence", "ap-eul")]⟩
  | PromptTag.hangulToKorPron => ⟨[("thought_process", "tp"), ("final_sequence", "ap-eul")]⟩
  | PromptTag.wrongAnswers =>
      ⟨[("mutation_1", "a-peul"), ("mutation_2", "ap-eu"), ("mutation_3", "a-pool")]⟩

/-- Concrete environment with an identity shuffle. -/
def goodEnv : Env := { respond := goodRespond, shuffle := fun l => l }

/-- The identity shuffle is a permutation. -/
theorem goodEnv_wf : Env.Wf goodEnv := fun l => List.Perm.refl l

/-- A state sitting at a given stage with a topic already generated. -/
def stageState (stage : Nat) : SessionState :=
  { initState with
      step := stage,
      topic_info := some ⟨[("topic", "apple"), ("tutorial", "tut")]⟩ }

/-- `topicOf` reads only `topic_info`. -/
theorem topicOf_congr {s s1 : SessionState}
    (h : s1.topic_info = s.topic_info) : topicOf s1 = topicOf s := by
  unfold topicOf
  rw [h]

/-- A successful stage-0 entry leaves `topic_info` set and touches no
other session field but the call counter. -/
theorem enterStage0_ok_cases (e : Env) {s s1 : SessionState}
    (h : enterStage0 e s = Except.ok s1) :
    s1.topic_info.isSome = true ∧ s1.step = s.step ∧
    s1.hangul_quiz_data = s.hangul_quiz_data ∧
    s1.english_quiz_data = s.english_quiz_data ∧
    s1.fill_blank_data = s.fill_blank_data := by
  unfold enterStage0 at h
  cases ht : s.topic_info with
  | some o =>
      rw [ht] at h
      simp only [Except.ok.injEq] at h
      subst h
      simp [ht]
  | none =>
      rw [ht] at h
      simp only [get_random_topic, get_json_response, Except.ok.injEq] at h
      subst h
      simp


/-- A successful stage-1 entry presupposes a readable topic, leaves the
memo slot filled, and touches no other session field but the call
counter. -/
theorem enterStage1_ok_cases (e : Env) {s s1 : SessionState}
    (h : enterStage1 e s = Except.ok s1) :
    (∃ t, topicOf s = Except.ok t) ∧ s1.topic_info = s.topic_info ∧
    s1.step = s.step ∧ s1.hangul_quiz_data.isSome = true ∧
    s1.english_quiz_data = s.english_quiz_data ∧
    s1.fill_blank_data = s.fill_blank_data := by
  unfold enterStage1 at h
  split at h
  · exact absurd h (by simp)
  · rename_i topic ht
    refine ⟨⟨topic, ht⟩, ?_⟩
    split at h
    · rename_i d hm
      simp only [Except.ok.injEq] at h
      subst h
      simp [hm]
    · rename_i hm
      simp only [english_to_korean, hangul_to_korean_pronunciation,
        create_wrong_answers, get_json_response] at h
      split at h
      · exact absurd h (by simp)
      · rename_i hg hk
        split at h
        · exact absurd h (by simp)
        · rename_i c hc
          split at h
          · exact absurd h (by simp)
          · rename_i ex hx
            simp only [Except.ok.injEq] at h
            subst h
            simp only [SessionState.mk.injEq] at *
            split at hk
            · exact absurd hk (by simp)
            · simp only [Except.ok.injEq] at hk
              subst hk
              simp

theorem enterStage2_ok_cases (e : Env) {s s1 : SessionState}
    (h : enterStage2 e s = Except.ok s1) :
    (∃ t, topicOf s = Except.ok t) ∧ s1.topic_info = s.topic_info ∧
    s1.step = s.step ∧ s1.english_quiz_data.isSome = true ∧
    s1.hangul_quiz_data = s.hangul_quiz_data ∧
    s1.fill_blank_data = s.fill_blank_data := by
  unfold enterStage2 at h
  split at h
  · exact absurd h (by simp)
  · rename_i topic ht
    refine ⟨⟨topic, ht⟩, ?_⟩
    split at h
    · rename_i d hm
      simp only [Except.ok.injEq] at h
      subst h
      simp [hm]
    · rename_i hm
      simp only [english_to_korean_pronunciation, create_wrong_answers,
        get_json_response] at h
      split at h
      · exact absurd h (by simp)
      · rename_i c hc
        split at h
        · exact absurd h (by simp)
        · rename_i ex hx
          simp only [Except.ok.injEq] at h
          subst h
          simp

theorem enterStage3_ok_cases (e : Env) {s s1 : SessionState}
    (h : enterStage3 e s = Except.ok s1) :
    (∃ t, topicOf s = Except.ok t) ∧ s1.topic_info = s.topic_info ∧
    s1.step = s.step ∧ s1.fill_blank_data.isSome = true ∧
    s1.hangul_quiz_data = s.hangul_quiz_data ∧
    s1.english_quiz_data = s.english_quiz_data := by
  unfold enterStage3 at h
  split at h
  · exact absurd h (by simp)
  · rename_i topic ht
    refine ⟨⟨topic, ht⟩, ?_⟩
    split at h
    · rename_i d hm
      simp only [Except.ok.injEq] at h
      subst h
      simp [hm]
    · rename_i hm
      simp only [make_korean_sentence, hangul_to_korean_pronunciation,
        create_wrong_answers, get_json_response] at h
      split at h
      · exact absurd h (by simp)
      · rename_i su hsu
        split at h
        · exact absurd h (by simp)
        · rename_i sw hsw
          split at h
          · exact absurd h (by simp)
          · rename_i c hc
            split at h
            · exact absurd h (by simp)
            · rename_i ex hx
              simp only [Except.ok.injEq] at h
              subst h
              simp

theorem enterStage1_gen (e : Env) {s s1 : SessionState}
    (hm : s.hangul_quiz_data = none)
    (h : enterStage1 e s = Except.ok s1) :
    ∃ c, correctAt s1 1 = some c ∧
      choicesAt s1 1 = some (e.shuffle (wrongValsAt e s 1 ++ [c])) := by
  unfold enterStage1 at h
  split at h
  · exact absurd h (by simp)
  · rename_i topic ht
    split at h
    · rename_i d hmem
      rw [hm] at hmem
      exact absurd hmem (by simp)
    · simp only [english_to_korean, hangul_to_korean_pronunciation,
        create_wrong_answers, get_json_response] at h
      split at h
      · exact absurd h (by simp)
      · rename_i hg hk
        split at h
        · exact absurd h (by simp)
        · rename_i c hc
          split at h
          · exact absurd h (by simp)
          · rename_i ex hx
            simp only [Except.ok.injEq] at h
            subst h
            split at hk
            · exact absurd hk (by simp)
            · simp only [Except.ok.injEq] at hk
              subst hk
              refine ⟨c, ?_, ?_⟩
              · simp [correctAt]
              · simp [choicesAt, wrongValsAt, wrongCallIndex]

theorem enterStage2_gen (e : Env) {s s1 : SessionState}
    (hm : s.english_quiz_data = none)
    (h : enterStage2 e s = Except.ok s1) :
    ∃ c, correctAt s1 2 = some c ∧
      choicesAt s1 2 = some (e.shuffle (wrongValsAt e s 2 ++ [c])) := by
  unfold enterStage2 at h
  split at h
  · exact absurd h (by simp)
  · rename_i topic ht
    split at h
    · rename_i d hmem
      rw [hm] at hmem
      exact absurd hmem (by simp)
    · simp only [english_to_korean_pronunciation, create_wrong_answers,
        get_json_response] at h
      split at h
      · exact absurd h (by simp)
      · rename_i c hc
        split at h
        · exact absurd h (by simp)
        · rename_i ex hx
          simp only [Except.ok.injEq] at h
          subst h
          refine ⟨c, ?_, ?_⟩
          · simp [correctAt]
          · simp [choicesAt, wrongValsAt, wrongCallIndex]

theorem enterStage3_gen (e : Env) {s s1 : SessionState}
    (hm : s.fill_blank_data = none)
    (h : enterStage3 e s = Except.ok s1) :
    ∃ c, correctAt s1 3 = some c ∧
      choicesAt s1 3 = some (e.shuffle (wrongValsAt e s 3 ++ [c])) := by
  unfold enterStage3 at h
  split at h
  · exact absurd h (by simp)
  · rename_i topic ht
    split at h
    · rename_i d hmem
      rw [hm] at hmem
      exact absurd hmem (by simp)
    · simp only [make_korean_sentence, hangul_to_korean_pronunciation,
        create_wrong_answers, get_json_response] at h
      split at h
      · exact absurd h (by simp)
      · rename_i su hsu
        split at h
        · exact absurd h (by simp)
        · rename_i sw hsw
          split at h
          · exact absurd h (by simp)
          · rename_i c hc
            split at h
            · exact absurd h (by simp)
            · rename_i ex hx
              simp only [Except.ok.injEq] at h
              subst h
              refine ⟨c, ?_, ?_⟩
              · simp [correctAt]
              · simp [choicesAt, wrongValsAt, wrongCallIndex]

theorem enterStage0_idem (e : Env) {s s1 : SessionState}
    (h : enterStage0 e s = Except.ok s1) :
    enterStage0 e s1 = Except.ok s1 := by
  obtain ⟨hts, _, _, _, _⟩ := enterStage0_ok_cases e h
  cases htt : s1.topic_info with
  | none => rw [htt] at hts; simp at hts
  | some o => simp [enterStage0, htt]

theorem enterStage1_idem (e : Env) {s s1 : SessionState}
    (h : enterStage1 e s = Except.ok s1) :
    enterStage1 e s1 = Except.ok s1 := by
  obtain ⟨⟨t, ht⟩, htop, _, hmem, _, _⟩ := enterStage1_ok_cases e h
  have ht1 : topicOf s1 = Except.ok t := by rw [topicOf_congr htop, ht]
  cases hmm : s1.hangul_quiz_data with
  | none => rw [hmm] at hmem; simp at hmem
  | some d => simp [enterStage1, ht1, hmm]

theorem enterStage2_idem (e : Env) {s s1 : SessionState}
    (h : enterStage2 e s = Except.ok s1) :
    enterStage2 e s1 = Except.ok s1 := by
  obtain ⟨⟨t, ht⟩, htop, _, hmem, _, _⟩ := enterStage2_ok_cases e h
  have ht1 : topicOf s1 = Except.ok t := by rw [topicOf_congr htop, ht]
  cases hmm : s1.english_quiz_data with
  | none => rw [hmm] at hmem; simp at hmem
  | some d => simp [enterStage2, ht1, hmm]

theorem enterStage3_idem (e : Env) {s s1 : SessionState}
    (h : enterStage3 e s = Except.ok s1) :
    enterStage3 e s1 = Except.ok s1 := by
  obtain ⟨⟨t, ht⟩, htop, _, hmem, _, _⟩ := enterStage3_ok_cases e h
  have ht1 : topicOf s1 = Except.ok t := by rw [topicOf_congr htop, ht]
  cases hmm : s1.fill_blank_data with
  | none => rw [hmm] at hmem; simp at hmem
  | some d => simp [enterStage3, ht1, hmm]

theorem enterStage_frame (e : Env) {s s1 : SessionState}
    (h : enterStage e s = Except.ok s1) : s1.step = s.step := by
  unfold enterStage at h
  split_ifs at h with h0 h1 h2 h3
  · exact (enterStage0_ok_cases e h).2.1
  · exact (enterStage1_ok_cases e h).2.2.1
  · exact (enterStage2_ok_cases e h).2.2.1
  · exact (enterStage3_ok_cases e h).2.2.1
  · simp only [Except.ok.injEq] at h; subst h; rfl

theorem enterStage_idem (e : Env) {s s1 : SessionState}
    (h : enterStage e s = Except.ok s1) : enterStage e s1 = Except.ok s1 := by
  have hstep : s1.step = s.step := enterStage_frame e h
  unfold enterStage at h ⊢
  split_ifs at h with h0 h1 h2 h3
  · simp [hstep, h0]
    exact enterStage0_idem e h
  · simp [hstep, h0, h1]
    exact enterStage1_idem e h
  · simp [hstep, h0, h1, h2]
    exact enterStage2_idem e h
  · simp [hstep, h0, h1, h2, h3]
    exact enterStage3_idem e h
  · simp only [Except.ok.injEq] at h
    subst h
    simp [hstep, h0, h1, h2, h3]

theorem enterStage_memo (e : Env) {s s1 : SessionState}
    (h : enterStage e s = Except.ok s1) : memoAt s1 s.step = true := by
  unfold enterStage at h
  split_ifs at h with h0 h1 h2 h3
  · rw [h0]; exact (enterStage0_ok_cases e h).1
  · rw [h1]; exact (enterStage1_ok_cases e h).2.2.2.1
  · rw [h2]; exact (enterStage2_ok_cases e h).2.2.2.1
  · rw [h3]; exact (enterStage3_ok_cases e h).2.2.2.1
  · obtain ⟨m, hm⟩ : ∃ m, s.step = m + 4 := ⟨s.step - 4, by omega⟩
    rw [hm]
    rfl

theorem applyEvent_enter_ok (e : Env) {s : SessionState} {r : StepResult}
    (h : applyEvent e Event.enter s = Except.ok r) :
    enterStage e s = Except.ok r.state := by
  simp only [applyEvent] at h
  cases he : enterStage e s with
  | error er => rw [he] at h; simp [Except.map] at h
  | ok s1 =>
      rw [he] at h
      simp only [Except.map, Except.ok.injEq] at h
      subst h
      rfl

theorem applyEvent_check_state (e : Env) {s : SessionState} {chosen : String}
    {r : StepResult} (h : applyEvent e (Event.check chosen) s = Except.ok r) :
    r.state = s := by
  simp only [applyEvent] at h
  cases hc : checkAnswer s chosen with
  | error er => rw [hc] at h; simp [Except.map] at h
  | ok v =>
      rw [hc] at h
      simp only [Except.map, Except.ok.injEq] at h
      subst h
      rfl

theorem stepState_mono (e : Env) (ev : Event) (s : SessionState)
    (hne : ev ≠ Event.newTopic) : s.step ≤ (stepState e ev s).step := by
  unfold stepState
  cases happ : applyEvent e ev s with
  | error er => exact Nat.le_refl _
  | ok r =>
      cases ev with
      | enter => exact Nat.le_of_eq (enterStage_frame e (applyEvent_enter_ok e happ)).symm
      | advanceBtn =>
          simp only [applyEvent, Except.ok.injEq] at happ
          subst happ
          exact Nat.le_succ _
      | check chosen =>
          show s.step ≤ r.state.step
          rw [applyEvent_check_state e happ]
      | newTopic => exact absurd rfl hne
      | endGame =>
          simp only [applyEvent, Except.ok.injEq] at happ
          subst happ
          exact Nat.le_refl _

theorem stepState_bound (e : Env) (ev : Event) (s : SessionState)
    (hb : s.step ≤ 4) (hen : enabledEvent s ev = true) :
    (stepState e ev s).step ≤ 4 := by
  unfold stepState
  cases happ : applyEvent e ev s with
  | error er => exact hb
  | ok r =>
      cases ev with
      | enter => rw [enterStage_frame e (applyEvent_enter_ok e happ)]; exact hb
      | advanceBtn =>
          simp only [applyEvent, Except.ok.injEq] at happ
          subst happ
          simp only [enabledEvent, decide_eq_true_eq] at hen
          simp only [next_step]
          omega
      | check chosen =>
          show r.state.step ≤ 4
          rw [applyEvent_check_state e happ]
          exact hb
      | newTopic =>
          simp only [applyEvent, Except.ok.injEq] at happ
          subst happ
          simp [reset_game]
      | endGame =>
          simp only [applyEvent, Except.ok.injEq] at happ
          subst happ
          exact hb

theorem runTrace_mono (e : Env) (s : SessionState) (tr : List Event)
    (hne : Event.newTopic ∉ tr) : s.step ≤ (runTrace e s tr).step := by
  induction tr generalizing s with
  | nil => exact Nat.le_refl _
  | cons ev tl ih =>
      simp only [List.mem_cons, not_or] at hne
      exact Nat.le_trans (stepState_mono e ev s (Ne.symm hne.1))
        (ih (stepState e ev s) hne.2)

theorem runTrace_bound (e : Env) (s : SessionState) (tr : List Event)
    (hb : s.step ≤ 4) (hen : traceEnabled e s tr = true) :
    (runTrace e s tr).step ≤ 4 := by
  induction tr generalizing s with
  | nil => exact hb
  | cons ev tl ih =>
      simp only [traceEnabled, Bool.and_eq_true] at hen
      exact ih (stepState e ev s) (stepState_bound e ev s hb hen.1) hen.2

/-- Dispatch form of the generation-shape lemmas: a quiz-stage entry
from an unfilled memo slot stores a shuffle of the Gateway's distractor
values with the correct answer appended. -/
theorem enterStage_gen (e : Env) {s s1 : SessionState} {stage : Nat}
    (h1 : 1 ≤ stage) (h3 : stage ≤ 3) (hstep : s.step = stage)
    (hm : memoAt s stage = false)
    (h : enterStage e s = Except.ok s1) :
    ∃ c, correctAt s1 stage = some c ∧
      choicesAt s1 stage = some (e.shuffle (wrongValsAt e s stage ++ [c])) := by
  have hcase : stage = 1 ∨ stage = 2 ∨ stage = 3 := by omega
  rcases hcase with hc | hc | hc
  · subst hc
    have hmm : s.hangul_quiz_data = none := by
      cases hh : s.hangul_quiz_data with
      | none => rfl
      | some d => simp [memoAt, hh] at hm
    simp only [enterStage, hstep] at h
    norm_num at h
    exact enterStage1_gen e hmm h
  · subst hc
    have hmm : s.english_quiz_data = none := by
      cases hh : s.english_quiz_data with
      | none => rfl
      | some d => simp [memoAt, hh] at hm
    simp only [enterStage, hstep] at h
    norm_num at h
    exact enterStage2_gen e hmm h
  · subst hc
    have hmm : s.fill_blank_data = none := by
      cases hh : s.fill_blank_data with
      | none => rfl
      | some d => simp [memoAt, hh] at hm
    simp only [enterStage, hstep] at h
    norm_num at h
    exact enterStage3_gen e hmm h

/-- C2: for every stage, a successful `enterStage` fills the stage's memo
slot, and entering the same stage again is exactly a no-op: it returns
the same session state, so in particular `calls` (the Gateway-call
counter) does not move — no further Gateway call is made — and no memo
slot changes, until an intervening `next_step`/`reset_game` changes the
stage. -/
theorem C2_memoized_idempotent (e : Env) (s s1 : SessionState)
    (h : enterStage e s = Except.ok s1) :
    memoAt s1 s.step = true ∧ enterStage e s1 = Except.ok s1 :=
  ⟨enterStage_memo e h, enterStage_idem e h⟩

/-- The session state after the first stage-0 entry of `goodEnv`. -/
def postTopicState : SessionState :=
  { initState with
      topic_info := some ⟨[("topic", "apple"), ("tutorial", "tut")]⟩,
      calls := 1 }

/-- C2 witness: concrete first entry at stage 0, then the memoization
no-op. -/
theorem C2_witness :
    enterStage goodEnv initState = Except.ok postTopicState ∧
    memoAt postTopicState initState.step = true ∧
    enterStage goodEnv postTopicState = Except.ok postTopicState := by
  refine ⟨rfl, ?_, ?_⟩
  · exact (C2_memoized_idempotent goodEnv initState postTopicState rfl).1
  · exact (C2_memoized_idempotent goodEnv initState postTopicState rfl).2

/-- C3: at any quiz stage (1-3) whose memo holds correct answer `c`, the
`Check Answer` comparison succeeds and reports `correct = true` exactly
when the chosen answer is string-equal to `c`; the verdict also carries
`c` itself. -/
theorem C3_check_iff_eq (s : SessionState) (chosen c : String)
    (h1 : 1 ≤ s.step) (h3 : s.step ≤ 3)
    (hc : correctAt s s.step = some c) :
    ∃ v, checkAnswer s chosen = Except.ok v ∧ v.correct_answer = c ∧
      (v.correct = true ↔ chosen = c) := by
  have hcase : s.step = 1 ∨ s.step = 2 ∨ s.step = 3 := by omega
  rcases hcase with hs | hs | hs
  · rw [hs] at hc
    cases hd : s.hangul_quiz_data with
    | none => simp [correctAt, hd] at hc
    | some d =>
        simp only [correctAt, hd] at hc
        norm_num at hc
        refine ⟨{ correct := chosen == d.correct_answer,
                  correct_answer := d.correct_answer,
                  explanation := d.explanation },
          by simp [checkAnswer, hs, hd], hc, ?_⟩
        subst hc
        simp
  · rw [hs] at hc
    cases hd : s.english_quiz_data with
    | none => simp [correctAt, hd] at hc
    | some d =>
        simp only [correctAt, hd] at hc
        norm_num at hc
        refine ⟨{ correct := chosen == d.correct_answer,
                  correct_answer := d.correct_answer,
                  explanation := d.explanation },
          by simp [checkAnswer, hs, hd], hc, ?_⟩
        subst hc
        simp
  · rw [hs] at hc
    cases hd : s.fill_blank_data with
    | none => simp [correctAt, hd] at hc
    | some d =>
        simp only [correctAt, hd] at hc
        norm_num at hc
        refine ⟨{ correct := chosen == d.correct_answer,
                  correct_answer := d.correct_answer,
                  explanation := d.explanation },
          by simp [checkAnswer, hs, hd], hc, ?_⟩
        subst hc
        simp

/-- A concrete state at quiz stage 1 with a filled memo slot. -/
def quizMemoState : SessionState :=
  { initState with
      step := 1,
      topic_info := some ⟨[("topic", "apple"), ("tutorial", "tut")]⟩,
      hangul_quiz_data :=
        some { hangul := "hg",
               correct_answer := "ap-eul",
               explanation := "tp",
               answer_choices := ["a-peul", "ap-eu", "a-pool", "ap-eul"] },
      calls := 3 }

/-- C3 witness: at the concrete stage-1 state the check is exact string
comparison against the memoized answer. -/
theorem C3_witness :
    1 ≤ quizMemoState.step ∧ quizMemoState.step ≤ 3 ∧
    correctAt quizMemoState quizMemoState.step = some "ap-eul" ∧
    ∃ v, checkAnswer quizMemoState "a-peul" = Except.ok v ∧
      v.correct_answer = "ap-eul" ∧ (v.correct = true ↔ "a-peul" = "ap-eul") :=
  ⟨by decide, by decide, by decide,
    C3_check_iff_eq quizMemoState "a-peul" "ap-eul" (by decide) (by decide) (by decide)⟩

/-- C9: a `Check Answer` click mutates nothing: the stage index,
`topic_info` and all three memo slots (indeed the whole session state,
the Gateway-call counter included) are exactly as before, so no
advancement happens — `next_step` runs only from the separate `Next`
button event. -/
theorem C9_check_pure (e : Env) (s : SessionState) (chosen : String)
    (r : StepResult) (h : applyEvent e (Event.check chosen) s = Except.ok r) :
    r.state.step = s.step ∧ r.state.topic_info = s.topic_info ∧
    r.state.hangul_quiz_data = s.hangul_quiz_data ∧
    r.state.english_quiz_data = s.english_quiz_data ∧
    r.state.fill_blank_data = s.fill_blank_data ∧ r.state = s := by
  have hst := applyEvent_check_state e h
  exact ⟨by rw [hst], by rw [hst], by rw [hst], by rw [hst], by rw [hst], hst⟩

/-- C9 witness: a concrete checked answer leaves the concrete state
untouched. -/
theorem C9_witness :
    applyEvent goodEnv (Event.check "a-peul") quizMemoState =
      Except.ok { state := quizMemoState,
                  verdict := some { correct := false,
                                    correct_answer := "ap-eul",
                                    explanation := "tp" },
                  stopped := false } ∧
    ({ state := quizMemoState,
       verdict := some { correct := false,
                         correct_answer := "ap-eul",
                         explanation := "tp" },
       stopped := false } : StepResult).state = quizMemoState := by
  refine ⟨rfl, ?_⟩
  exact (C9_check_pure goodEnv quizMemoState "a-peul" _ rfl).2.2.2.2.2

/-- C7: `reset_game` sets the stage to 0 and empties `topic_info` and all
three memo slots, and the next stage-0 entry invokes the Topic Provider
again: it makes a fresh Gateway call (the call counter moves from
`s.calls` to `s.calls + 1`) and stores that call's response, never
content from before the reset. -/
theorem C7_reset_clears_and_regenerates (e : Env) (s : SessionState) :
    (reset_game s).step = 0 ∧ (reset_game s).topic_info = none ∧
    (reset_game s).hangul_quiz_data = none ∧
    (reset_game s).english_quiz_data = none ∧
    (reset_game s).fill_blank_data = none ∧
    enterStage e (reset_game s) =
      Except.ok { reset_game s with
        topic_info := some (e.respond s.calls PromptTag.randomTopic),
        calls := s.calls + 1 } :=
  ⟨rfl, rfl, rfl, rfl, rfl, rfl⟩

/-- Backend that answers the Hangul transliteration request without the
required `final_sequence` key. -/
def noSeqEnv : Env :=
  { respond := fun _ tag =>
      match tag with
      | PromptTag.engToKor => ⟨[("hangul", "hg")]⟩
      | PromptTag.hangulToKorPron => ⟨[("thought_process", "tp")]⟩
      | _ => ⟨[]⟩,
    shuffle := fun l => l }

/-- C6: when the stage-1 transliteration response lacks the required
`final_sequence` key, stage entry raises the missing-key error (the
spec's `GenerationError`) and the retained session state is exactly the
pre-entry state: the memo slot stays empty, nothing was partially
written, and a retry runs from an identical state. -/
theorem C6_failure_leaves_state (e : Env) (s : SessionState) (t hg : String)
    (hstep : s.step = 1) (hm : s.hangul_quiz_data = none)
    (ht : topicOf s = Except.ok t)
    (hh : (e.respond s.calls PromptTag.engToKor).get? "hangul" = some hg)
    (hmiss : (e.respond (s.calls + 1) PromptTag.hangulToKorPron).get? "final_sequence" = none) :
    enterStage e s = Except.error (GenError.missingKey "final_sequence") ∧
    stepState e Event.enter s = s := by
  have hrun : enterStage e s = Except.error (GenError.missingKey "final_sequence") := by
    simp [enterStage, enterStage1, hstep, hm, ht, english_to_korean,
      get_json_response, hangul_to_korean_pronunciation, hh, hmiss]
  refine ⟨hrun, ?_⟩
  simp [stepState, applyEvent, hrun, Except.map]

/-- C6 witness: the concrete missing-`final_sequence` scenario at stage 1. -/
theorem C6_witness :
    (stageState 1).step = 1 ∧ (stageState 1).hangul_quiz_data = none ∧
    topicOf (stageState 1) = Except.ok "apple" ∧
    (noSeqEnv.respond (stageState 1).calls PromptTag.engToKor).get? "hangul" = some "hg" ∧
    (noSeqEnv.respond ((stageState 1).calls + 1) PromptTag.hangulToKorPron).get? "final_sequence" = none ∧
    enterStage noSeqEnv (stageState 1) = Except.error (GenError.missingKey "final_sequence") ∧
    stepState noSeqEnv Event.enter (stageState 1) = stageState 1 := by
  refine ⟨by decide, by decide, rfl, by decide, by decide, ?_, ?_⟩
  · exact (C6_failure_leaves_state noSeqEnv (stageState 1) "apple" "hg"
      (by decide) (by decide) rfl (by decide) (by decide)).1
  · exact (C6_failure_leaves_state noSeqEnv (stageState 1) "apple" "hg"
      (by decide) (by decide) rfl (by decide) (by decide)).2

/-- C10: whenever a quiz stage actually generates content, the stored
answer-choice list is a shuffle of the distractor response's values with
the correct answer appended: its length is the number of values in that
response plus one, and it contains the correct answer at least once —
with no constraint on how many keys the response had or whether a
distractor equals the correct answer. -/
theorem C10_choices_contain_correct (e : Env) (s s1 : SessionState) (stage : Nat)
    (he : Env.Wf e) (h1 : 1 ≤ stage) (h3 : stage ≤ 3) (hstep : s.step = stage)
    (hm : memoAt s stage = false) (h : enterStage e s = Except.ok s1) :
    ∃ ch c, choicesAt s1 stage = some ch ∧ correctAt s1 stage = some c ∧
      ch.length = (wrongValsAt e s stage).length + 1 ∧ 1 ≤ ch.count c := by
  obtain ⟨c, hcor, hch⟩ := enterStage_gen e h1 h3 hstep hm h
  have hp := he (wrongValsAt e s stage ++ [c])
  refine ⟨_, c, hch, hcor, ?_, ?_⟩
  · rw [hp.length_eq]
    simp
  · rw [hp.count_eq, List.count_append]
    simp

/-- C10 witness: the concrete stage-1 generation under `goodEnv`. -/
theorem C10_witness :
    memoAt (stageState 1) 1 = false ∧
    enterStage goodEnv (stageState 1) = Except.ok quizMemoState ∧
    ∃ ch c, choicesAt quizMemoState 1 = some ch ∧
      correctAt quizMemoState 1 = some c ∧
      ch.length = (wrongValsAt goodEnv (stageState 1) 1).length + 1 ∧
      1 ≤ ch.count c :=
  ⟨by decide, rfl,
    C10_choices_contain_correct goodEnv (stageState 1) quizMemoState 1 goodEnv_wf
      (by decide) (by decide) (by decide) (by decide) rfl⟩

/-- Backend whose distractor response repeats the correct answer. -/
def dupEnv : Env :=
  { respond := fun _ tag =>
      match tag with
      | PromptTag.engToKor => ⟨[("hangul", "hg")]⟩
      | PromptTag.hangulToKorPron =>
          ⟨[("thought_process", "tp"), ("final_sequence", "ab")]⟩
      | PromptTag.wrongAnswers =>
          ⟨[("mutation_1", "ab"), ("mutation_2", "c"), ("mutation_3", "d")]⟩
      | _ => ⟨[]⟩,
    shuffle := fun l => l }

/-- The state stored by the stage-1 entry under `dupEnv`. -/
def dupQuizState : SessionState :=
  { stageState 1 with
      calls := 3,
      hangul_quiz_data :=
        some { hangul := "hg",
               correct_answer := "ab",
               explanation := "tp",
               answer_choices := ["ab", "c", "d", "ab"] } }

/-- C1 counterexample: a successful stage-1 entry whose distractor
response contains the correct answer `"ab"` stores an answer-choice list
holding the correct answer twice, so "contains the correct answer
exactly once" is false for a successful entry. -/
theorem C1_cex :
    enterStage dupEnv (stageState 1) = Except.ok dupQuizState ∧
    correctAt dupQuizState 1 = some "ab" ∧
    choicesAt dupQuizState 1 = some ["ab", "c", "d", "ab"] ∧
    List.count "ab" ["ab", "c", "d", "ab"] = 2 :=
  ⟨rfl, by decide, by decide, by decide⟩

/-- C1 (amended): if the quiz stage's distractor response yields exactly
3 values, none equal to the stage's correct answer, then the memoized
answer-choice list has length 4 and contains the correct answer exactly
once; and re-entering the same stage returns the very same state, so the
list (and its order) is fixed once generated — no re-shuffle on a
re-render. -/
theorem C1_answer_set_invariant (e : Env) (s s1 : SessionState) (stage : Nat)
    (he : Env.Wf e) (h1 : 1 ≤ stage) (h3 : stage ≤ 3) (hstep : s.step = stage)
    (hm : memoAt s stage = false) (h : enterStage e s = Except.ok s1)
    (hlen : (wrongValsAt e s stage).length = 3)
    (hdist : ∀ c, correctAt s1 stage = some c → c ∉ wrongValsAt e s stage) :
    ∃ ch c, choicesAt s1 stage = some ch ∧ correctAt s1 stage = some c ∧
      ch.length = 4 ∧ ch.count c = 1 ∧
      enterStage e s1 = Except.ok s1 := by
  obtain ⟨c, hcor, hch⟩ := enterStage_gen e h1 h3 hstep hm h
  have hp := he (wrongValsAt e s stage ++ [c])
  refine ⟨_, c, hch, hcor, ?_, ?_, enterStage_idem e h⟩
  · rw [hp.length_eq]
    simp [hlen]
  · rw [hp.count_eq, List.count_append,
      List.count_eq_zero_of_not_mem (hdist c hcor)]
    simp

/-- C1 witness: the concrete stage-1 generation under `goodEnv`, whose
distractor response has three values all different from the correct
answer. -/
theorem C1_witness :
    (wrongValsAt goodEnv (stageState 1) 1).length = 3 ∧
    enterStage goodEnv (stageState 1) = Except.ok quizMemoState ∧
    ∃ ch c, choicesAt quizMemoState 1 = some ch ∧
      correctAt quizMemoState 1 = some c ∧ ch.length = 4 ∧ ch.count c = 1 ∧
      enterStage goodEnv quizMemoState = Except.ok quizMemoState :=
  ⟨by decide, rfl,
    C1_answer_set_invariant goodEnv (stageState 1) quizMemoState 1 goodEnv_wf
      (by decide) (by decide) (by decide) (by decide) rfl (by decide)
      (by
        intro c hc
        have hcc : some "ap-eul" = some c := hc
        injection hcc with hcc
        subst hcc
        decide)⟩

/-- Backend whose distractor response has only two values, both equal —
fewer than 3 distinct distractors. -/
def fewEnv : Env :=
  { respond := fun _ tag =>
      match tag with
      | PromptTag.engToKor => ⟨[("hangul", "hg")]⟩
      | PromptTag.hangulToKorPron =>
          ⟨[("thought_process", "tp"), ("final_sequence", "ab")]⟩
      | PromptTag.wrongAnswers =>
          ⟨[("mutation_1", "aa"), ("mutation_2", "aa")]⟩
      | _ => ⟨[]⟩,
    shuffle := fun l => l }

/-- The state stored by the stage-1 entry under `fewEnv`: a 3-element
answer list. -/
def fewQuizState : SessionState :=
  { stageState 1 with
      calls := 3,
      hangul_quiz_data :=
        some { hangul := "hg",
               correct_answer := "ab",
               explanation := "tp",
               answer_choices := ["aa", "aa", "ab"] } }

/-- C4 counterexample: a distractor response with two duplicate values —
fewer than 3 distinct distractors — makes `create_wrong_answers` return
the raw 2-element duplicate list with no error of any kind, and the
stage entry succeeds, storing a 3-element answer list; no
`GenerationError` is raised. -/
theorem C4_cex :
    create_wrong_answers fewEnv "ab" (stageState 1) =
      (["aa", "aa"], { stageState 1 with calls := 1 }) ∧
    enterStage fewEnv (stageState 1) = Except.ok fewQuizState ∧
    choicesAt fewQuizState 1 = some ["aa", "aa", "ab"] :=
  ⟨rfl, rfl, by decide⟩

/-- C4 (amended): the answer-set builder performs no validation at all —
`create_wrong_answers` passes the distractor response's values through
verbatim (so it indeed never pads or deduplicates, but also raises no
error when fewer than 3 distinct distractors come back), and the stored
answer-choice list is exactly a permutation of those values with the
correct answer appended, whatever they were. -/
theorem C4_no_validation (e : Env) (s s1 : SessionState) (stage : Nat)
    (he : Env.Wf e) (h1 : 1 ≤ stage) (h3 : stage ≤ 3) (hstep : s.step = stage)
    (hm : memoAt s stage = false) (h : enterStage e s = Except.ok s1) :
    (∀ ca st, (create_wrong_answers e ca st).1 =
      (e.respond st.calls PromptTag.wrongAnswers).values) ∧
    ∃ ch c, choicesAt s1 stage = some ch ∧ correctAt s1 stage = some c ∧
      List.Perm ch (wrongValsAt e s stage ++ [c]) := by
  refine ⟨fun ca st => rfl, ?_⟩
  obtain ⟨c, hcor, hch⟩ := enterStage_gen e h1 h3 hstep hm h
  exact ⟨_, c, hch, hcor, he _⟩

/-- C4 witness: the degenerate duplicate-distractor generation under
`fewEnv` still satisfies the pass-through description. -/
theorem C4_witness :
    memoAt (stageState 1) 1 = false ∧
    enterStage fewEnv (stageState 1) = Except.ok fewQuizState ∧
    ((∀ ca st, (create_wrong_answers fewEnv ca st).1 =
        (fewEnv.respond st.calls PromptTag.wrongAnswers).values) ∧
      ∃ ch c, choicesAt fewQuizState 1 = some ch ∧
        correctAt fewQuizState 1 = some c ∧
        List.Perm ch (wrongValsAt fewEnv (stageState 1) 1 ++ [c])) :=
  ⟨by decide, rfl,
    C4_no_validation fewEnv (stageState 1) fewQuizState 1 (fun l => List.Perm.refl l)
      (by decide) (by decide) (by decide) (by decide) rfl⟩

/-- C5 counterexample: `next_step` fired at stage 4 is not a no-op — the
retained stage index becomes 5, outside `[0,4]` and different from the
prior state. -/
theorem C5_cex :
    (stepState goodEnv Event.advanceBtn (stageState 4)).step = 5 ∧
    ¬ (stepState goodEnv Event.advanceBtn (stageState 4)).step ≤ 4 ∧
    stepState goodEnv Event.advanceBtn (stageState 4) ≠ stageState 4 :=
  ⟨by decide, by decide, by decide⟩

/-- C5 (amended): along any event sequence free of `New Topic!` resets
the stage index never decreases; and along any sequence of events the
rendered pages actually offer (advance buttons exist only at stages
0-3), a stage index within `[0,4]` stays within `[0,4]`.  `next_step`
itself is an unconditional increment, so stage 4 is a ceiling only
because no advance event is offered there, not because `advance` is a
no-op. -/
theorem C5_monotone_bounded (e : Env) (s : SessionState) (tr : List Event) :
    (Event.newTopic ∉ tr → s.step ≤ (runTrace e s tr).step) ∧
    (s.step ≤ 4 → traceEnabled e s tr = true → (runTrace e s tr).step ≤ 4) :=
  ⟨fun hne => runTrace_mono e s tr hne,
   fun hb hen => runTrace_bound e s tr hb hen⟩

/-- A concrete enabled, reset-free event sequence from a fresh session. -/
def demoTrace : List Event := [Event.enter, Event.advanceBtn, Event.enter]

/-- C5 witness: the concrete trace generates, advances and generates
again; the stage index rises from 0 and stays within the bound. -/
theorem C5_witness :
    Event.newTopic ∉ demoTrace ∧
    initState.step ≤ (runTrace goodEnv initState demoTrace).step ∧
    initState.step ≤ 4 ∧ traceEnabled goodEnv initState demoTrace = true ∧
    (runTrace goodEnv initState demoTrace).step ≤ 4 :=
  ⟨by decide,
    (C5_monotone_bounded goodEnv initState demoTrace).1 (by decide),
    by decide, by decide,
    (C5_monotone_bounded goodEnv initState demoTrace).2 (by decide) (by decide)⟩

/-- C8 counterexample: after `End Game` at stage 4 (which leaves the
retained state untouched), a subsequent `New Topic!` and a subsequent
render both succeed normally — no operation fails, and no
`SessionEndedError` exists anywhere in the program. -/
theorem C8_cex :
    stepState goodEnv Event.endGame (stageState 4) = stageState 4 ∧
    applyEvent goodEnv Event.newTopic (stageState 4) =
      Except.ok { state := initState, verdict := none, stopped := false } ∧
    applyEvent goodEnv Event.enter (stageState 4) =
      Except.ok { state := stageState 4, verdict := none, stopped := false } :=
  ⟨by decide, rfl, rfl⟩

/-- C8 (amended): `End Game` merely calls `st.stop()`, halting the
current script run: the session state is completely unchanged, no
terminal marker is recorded, and every subsequent operation behaves
exactly as it would have before `End Game` — nothing raises a
session-ended error. -/
theorem C8_end_not_terminal (e : Env) (s : SessionState) :
    applyEvent e Event.endGame s =
      Except.ok { state := s, verdict := none, stopped := true } ∧
    stepState e Event.endGame s = s ∧
    ∀ ev : Event, applyEvent e ev (stepState e Event.endGame s) = applyEvent e ev s :=
  ⟨rfl, rfl, fun _ => rfl⟩
